import Mathlib

/-!
Shallow embedding of the request pipeline, error handlers, transaction
manager, permission dependencies, pooled HTTP client and JSON encoder of
the ddd-with-fastapi repository, together with theorems checking the
specification claims against it.
-/

namespace Ddd

/-! ### app/server.py : the middleware stack built by make_middleware -/

/-- Tags for the three middlewares listed in make_middleware. -/
inductive MwTag where
  | cors
  | auth
  | sqlalchemy
deriving DecidableEq, Repr

/-- The middleware list built by make_middleware in app/server.py:
CORSMiddleware, then AuthenticationMiddleware (with AuthBackend and
on_auth_error), then SQLAlchemyMiddleware, in that order. -/
def make_middleware : List MwTag :=
  [MwTag.cors, MwTag.auth, MwTag.sqlalchemy]

/-- Per-request pipeline stages: a middleware entering on the request
path, the route-level permission check, the handler body, and a
middleware unwinding on the response path. -/
inductive Stage where
  | mwEnter (m : MwTag)
  | permission_check
  | handler_run
  | mwExit (m : MwTag)
deriving DecidableEq, Repr

/-- Starlette builds the middleware stack so that the first middleware of
the list is the outermost layer: on the request path the listed
middlewares run in list order, then the route dependencies (the
permission check) and the handler run, and the response path unwinds the
middlewares in reverse list order. -/
def pipelineStages (ms : List MwTag) : List Stage :=
  ms.map Stage.mwEnter ++ [Stage.permission_check, Stage.handler_run]
    ++ ms.reverse.map Stage.mwExit

/-- The stage sequence of one request under the stack of make_middleware.
AuthenticationMiddleware resolves identity when entered (mwEnter auth);
SQLAlchemyMiddleware opens the ambient session when entered
(mwEnter sqlalchemy). -/
def requestPipeline : List Stage := pipelineStages make_middleware

/-! ### app/server.py : error handlers -/

/-- core.exceptions.CustomException, reduced to the fields the handlers
read: a status code, an error code and a message. -/
structure CustomException where
  code : Nat
  error_code : String
  message : String
deriving DecidableEq, Repr

/-- An exception reaching on_auth_error: either a CustomException or a
generic exception, represented by its string rendering str of exc. -/
inductive AuthExc where
  | custom (c : CustomException)
  | generic (str_exc : String)
deriving DecidableEq, Repr

/-- A JSONResponse whose body holds an error code and a message. -/
structure ErrorResponse where
  status_code : Nat
  error_code : Option String
  message : String
deriving DecidableEq, Repr

/-- on_auth_error from app/server.py: status 401, error code None and
message str of exc by default; when the exception is a CustomException,
its declared code, error code and message instead. -/
def on_auth_error (exc : AuthExc) : ErrorResponse :=
  match exc with
  | AuthExc.custom c =>
      { status_code := c.code, error_code := some c.error_code,
        message := c.message }
  | AuthExc.generic s =>
      { status_code := 401, error_code := none, message := s }

/-- custom_exception_handler registered by init_listeners in
app/server.py: maps a CustomException to a JSONResponse with its declared
status code, error code and message. -/
def custom_exception_handler (exc : CustomException) : ErrorResponse :=
  { status_code := exc.code, error_code := some exc.error_code,
    message := exc.message }

/-! ### app/server.py : create_app startup effects -/

/-- The backend instance passed to Cache.init. -/
inductive BackendTag where
  | redisBackend
deriving DecidableEq, Repr

/-- The key maker instance passed to Cache.init. -/
inductive KeyMakerTag where
  | customKeyMaker
deriving DecidableEq, Repr

/-- The observable startup effects of create_app in app/server.py, in
program order. -/
inductive AppEffect where
  | fastapiConstruct
  | includeRouter
  | addExceptionHandlers
  | cacheInit (b : BackendTag) (k : KeyMakerTag)
  | loggerInit
deriving DecidableEq, Repr

/-- init_cache from app/server.py: a single Cache.init call with a
RedisBackend backend and a CustomKeyMaker key maker. -/
def init_cache : List AppEffect :=
  [AppEffect.cacheInit BackendTag.redisBackend KeyMakerTag.customKeyMaker]

/-- init_routers from app/server.py includes the router. -/
def init_routers : List AppEffect := [AppEffect.includeRouter]

/-- init_listeners from app/server.py registers the exception handlers. -/
def init_listeners : List AppEffect := [AppEffect.addExceptionHandlers]

/-- init_logger from core/utils/logger.py configures logging. -/
def init_logger : List AppEffect := [AppEffect.loggerInit]

/-- create_app from app/server.py: constructs the FastAPI object, then
runs init_routers, init_listeners, init_cache and init_logger, then
returns the app object. -/
def create_app : List AppEffect :=
  [AppEffect.fastapiConstruct] ++ init_routers ++ init_listeners
    ++ init_cache ++ init_logger

/-- Recognizes a Cache.init effect. -/
def isCacheInit : AppEffect → Bool
  | AppEffect.cacheInit _ _ => true
  | _ => false

/-! ### Theorems for claims C1, C3, C7 -/

/-- Claim C1, counterexample: in the pipeline determined by the middleware
order of make_middleware, the ambient session is NOT opened before
authentication resolution. AuthenticationMiddleware is listed before
SQLAlchemyMiddleware, hence sits outside it and resolves identity first. -/
theorem C1_counterexample :
    ¬ requestPipeline.indexOf (Stage.mwEnter MwTag.sqlalchemy)
      < requestPipeline.indexOf (Stage.mwEnter MwTag.auth) := by
  decide

/-- Claim C1, amended: for every inbound request the pipeline stages
execute in the order CORS enter, Authentication Middleware resolves
identity, Session Middleware opens the ambient session, Permission
Dependency authorizes, handler executes; in particular authentication
resolution precedes the session opening, as determined by the middleware
order constructed in make_middleware with the first listed middleware
outermost. -/
theorem C1_pipeline_order :
    requestPipeline =
      [Stage.mwEnter MwTag.cors, Stage.mwEnter MwTag.auth,
       Stage.mwEnter MwTag.sqlalchemy, Stage.permission_check,
       Stage.handler_run, Stage.mwExit MwTag.sqlalchemy,
       Stage.mwExit MwTag.auth, Stage.mwExit MwTag.cors]
    ∧ requestPipeline.indexOf (Stage.mwEnter MwTag.auth)
        < requestPipeline.indexOf (Stage.mwEnter MwTag.sqlalchemy)
    ∧ requestPipeline.indexOf (Stage.mwEnter MwTag.sqlalchemy)
        < requestPipeline.indexOf Stage.permission_check
    ∧ requestPipeline.indexOf Stage.permission_check
        < requestPipeline.indexOf Stage.handler_run := by
  decide

/-- Claim C3: every surfaced error response pairs a status code with an
error code and a message; on_auth_error returns status 401, error code
None and message str of exc for a generic exception, and the declared
code, error code and message for a CustomException; the CustomException
handler likewise maps a domain exception to its declared status code,
error code and message. -/
theorem C3_error_responses (s : String) (c : CustomException) :
    on_auth_error (AuthExc.generic s)
        = { status_code := 401, error_code := none, message := s }
    ∧ on_auth_error (AuthExc.custom c)
        = { status_code := c.code, error_code := some c.error_code,
            message := c.message }
    ∧ custom_exception_handler c
        = { status_code := c.code, error_code := some c.error_code,
            message := c.message } :=
  ⟨rfl, rfl, rfl⟩

/-- Claim C7: create_app performs exactly one Cache.init effect, and that
effect carries a RedisBackend backend and a CustomKeyMaker key maker; it
occurs within the create_app body, before the app object is returned, and
no further Cache.init effect follows. -/
theorem C7_cache_init_once :
    (create_app.filter isCacheInit).length = 1
    ∧ create_app.filter isCacheInit
        = [AppEffect.cacheInit BackendTag.redisBackend
            KeyMakerTag.customKeyMaker]
    ∧ AppEffect.cacheInit BackendTag.redisBackend KeyMakerTag.customKeyMaker
        ∈ create_app := by
  decide

/-! ### core/fastapi/middlewares : SQLAlchemyMiddleware -/

/-- Session lifecycle events of one request. -/
inductive SessionEvent where
  | openSession
  | commitSession
  | rollbackSession
  | releaseSession
deriving DecidableEq, Repr

/-- Outcome of running the downstream pipeline (ending in the handler):
a response value, or a raised exception. -/
inductive Outcome (e r : Type) where
  | ok (resp : r)
  | raised (exc : e)
deriving DecidableEq, Repr

/-- Modelled from the spec: SQLAlchemyMiddleware is re-exported by
core/fastapi/middlewares but its source file sqlalchemy.py is not under
src/. Per the spec it opens the ambient session, invokes the downstream
pipeline, commits on success or rolls back on an unhandled exception,
re-raises that exception unchanged, and always releases the session. -/
def SQLAlchemyMiddleware {e r : Type} (downstream : Outcome e r) :
    List SessionEvent × Outcome e r :=
  match downstream with
  | Outcome.ok resp =>
      ([SessionEvent.openSession, SessionEvent.commitSession,
        SessionEvent.releaseSession], Outcome.ok resp)
  | Outcome.raised exc =>
      ([SessionEvent.openSession, SessionEvent.rollbackSession,
        SessionEvent.releaseSession], Outcome.raised exc)

/-! ### core/fastapi/dependencies : PermissionDependency, api/home/home.py -/

/-- Identity resolved by the Auth Backend: an authenticated principal or
the explicit unauthenticated marker. -/
inductive Identity where
  | unauthenticated
  | authenticated (subject : Nat) (is_admin : Bool)
deriving DecidableEq, Repr

/-- The capability predicate classes exported by
core/fastapi/dependencies. -/
inductive Perm where
  | AllowAll
  | IsAuthenticated
  | IsAdmin
deriving DecidableEq, Repr

/-- Modelled from the spec: each capability predicate is a pure function
of Identity (permission.py is re-exported by core/fastapi/dependencies
but its source file is not under src/). AllowAll is always true,
IsAuthenticated is true iff the identity is authenticated, IsAdmin is
true iff the identity carries the admin flag. -/
def Perm.eval : Perm → Identity → Bool
  | Perm.AllowAll, _ => true
  | Perm.IsAuthenticated, Identity.unauthenticated => false
  | Perm.IsAuthenticated, Identity.authenticated _ _ => true
  | Perm.IsAdmin, Identity.unauthenticated => false
  | Perm.IsAdmin, Identity.authenticated _ adm => adm

/-- Modelled from the spec: PermissionDependency evaluates its ordered
predicates against the current Identity and short-circuits at the first
predicate returning true. The first component is the decision, the second
counts how many predicates were evaluated before stopping. -/
def evalPermissions : List Perm → Identity → Bool × Nat
  | [], _ => (false, 0)
  | p :: ps, idn =>
      if p.eval idn then (true, 1)
      else
        let rest := evalPermissions ps idn
        (rest.1, rest.2 + 1)

/-- PermissionDependency permits the request iff some predicate of the
list accepts the identity. -/
def PermissionDependency (perms : List Perm) (idn : Identity) : Bool :=
  (evalPermissions perms idn).1

/-- The health route handler from api/home/home.py returns a response
with status code 200. -/
def home : Nat := 200

/-- The health route of api/home/home.py, guarded by
PermissionDependency with the single predicate AllowAll: the handler runs
iff the guard permits, and its status code is returned. -/
def health_route (idn : Identity) : Option Nat :=
  if PermissionDependency [Perm.AllowAll] idn then some home else none

/-! ### core/db : Transactional with REQUIRED propagation -/

/-- Physical transaction events. -/
inductive TxEvent where
  | beginTx
  | commitTx
  | rollbackTx
deriving DecidableEq, Repr

/-- A unit of work inside one request: a plain action with an outcome, a
sequential composition, or a sub-unit decorated with Transactional under
REQUIRED propagation. -/
inductive Work (e a : Type) where
  | act (r : Except e a)
  | seq (w1 w2 : Work e a)
  | transactional (w : Work e a)

/-- Modelled from the spec: Transactional is re-exported by core/db but
its source file transactional.py is not under src/. Per the spec, under
REQUIRED propagation a transactional unit entered at nesting depth 0
begins a physical transaction, runs its body at depth 1 and commits on
success or rolls back on failure; entered at a positive depth it joins
the open transaction, merely running its body one level deeper, and any
exception propagates unchanged. Returns the physical transaction events
in order together with the outcome. -/
def runTx {e a : Type} : Work e a → Nat → List TxEvent × Except e a
  | Work.act r, _ => ([], r)
  | Work.seq w1 w2, d =>
      let r1 := runTx w1 d
      match r1.2 with
      | Except.ok _ =>
          let r2 := runTx w2 d
          (r1.1 ++ r2.1, r2.2)
      | Except.error exc => (r1.1, Except.error exc)
  | Work.transactional w, d =>
      match d with
      | 0 =>
          let r := runTx w 1
          match r.2 with
          | Except.ok v =>
              (TxEvent.beginTx :: r.1 ++ [TxEvent.commitTx], Except.ok v)
          | Except.error exc =>
              (TxEvent.beginTx :: r.1 ++ [TxEvent.rollbackTx],
               Except.error exc)
      | d' + 1 => runTx w (d' + 2)

/-- At a positive nesting depth no physical transaction event is emitted:
inner REQUIRED units only join the open transaction. -/
theorem runTx_inner_no_events {e a : Type} (w : Work e a) :
    ∀ d, 1 ≤ d → (runTx w d).1 = [] := by
  induction w with
  | act r =>
      intro d _
      rfl
  | seq w1 w2 ih1 ih2 =>
      intro d hd
      show (match (runTx w1 d).2 with
        | Except.ok _ =>
            ((runTx w1 d).1 ++ (runTx w2 d).1, (runTx w2 d).2)
        | Except.error exc => ((runTx w1 d).1, Except.error exc)).1 = []
      cases h : (runTx w1 d).2 with
      | ok v => simp [ih1 d hd, ih2 d hd]
      | error exc => simp [ih1 d hd]
  | transactional w ih =>
      intro d hd
      match d, hd with
      | d' + 1, _ =>
          show (runTx w (d' + 2)).1 = []
          exact ih (d' + 2) (by omega)

/-! ### Theorems for claims C2, C4, C5 -/

/-- Claim C2: for a request whose downstream completes normally, the
ambient session is opened once, committed once and released once, and the
response is passed through; for a request whose downstream raises, the
session is opened once, rolled back once and released once, and the
original exception is re-raised unchanged. -/
theorem C2_session_lifecycle {e r : Type} (downstream : Outcome e r) :
    (SQLAlchemyMiddleware downstream).1.count SessionEvent.openSession = 1
    ∧ (SQLAlchemyMiddleware downstream).1.count SessionEvent.releaseSession
        = 1
    ∧ (match downstream with
       | Outcome.ok resp =>
           (SQLAlchemyMiddleware downstream).1.count
               SessionEvent.commitSession = 1
           ∧ (SQLAlchemyMiddleware downstream).1.count
               SessionEvent.rollbackSession = 0
           ∧ (SQLAlchemyMiddleware downstream).2 = Outcome.ok resp
       | Outcome.raised exc =>
           (SQLAlchemyMiddleware downstream).1.count
               SessionEvent.rollbackSession = 1
           ∧ (SQLAlchemyMiddleware downstream).1.count
               SessionEvent.commitSession = 0
           ∧ (SQLAlchemyMiddleware downstream).2 = Outcome.raised exc) := by
  cases downstream <;> exact ⟨rfl, rfl, rfl, rfl, rfl⟩

/-- Claim C4: for every identity state, AllowAll at evaluation position 0
short-circuits to accept after evaluating exactly one predicate,
PermissionDependency with AllowAll permits the request, and the health
route always executes its handler and returns status 200. -/
theorem C4_allow_all (idn : Identity) (ps : List Perm) :
    evalPermissions (Perm.AllowAll :: ps) idn = (true, 1)
    ∧ PermissionDependency [Perm.AllowAll] idn = true
    ∧ health_route idn = some 200 := by
  refine ⟨?_, ?_, ?_⟩ <;>
    simp [evalPermissions, PermissionDependency, health_route, Perm.eval,
      home]

/-- Claim C5: under REQUIRED propagation an inner transactional unit only
moves the nesting depth and emits no physical event of its own, and
nesting two transactional units yields exactly one physical commit or
rollback, decided at the outermost boundary: the pair commits exactly
when the body succeeds, and a failure inside (in particular a failure of
the inner unit) rolls back the outer transaction and propagates. -/
theorem C5_required_nesting {e a : Type} (w : Work e a) :
    (∀ d, runTx (Work.transactional w) (d + 1) = runTx w (d + 2))
    ∧ ((runTx (Work.transactional (Work.transactional w)) 0).1.count
          TxEvent.commitTx
        + (runTx (Work.transactional (Work.transactional w)) 0).1.count
          TxEvent.rollbackTx = 1)
    ∧ (match (runTx w 2).2 with
       | Except.ok v =>
           runTx (Work.transactional (Work.transactional w)) 0
             = ([TxEvent.beginTx, TxEvent.commitTx], Except.ok v)
       | Except.error exc =>
           runTx (Work.transactional (Work.transactional w)) 0
             = ([TxEvent.beginTx, TxEvent.rollbackTx],
                Except.error exc)) := by
  have hinner : (runTx w 2).1 = [] := runTx_inner_no_events w 2 (by omega)
  have houter :
      runTx (Work.transactional (Work.transactional w)) 0
        = (match (runTx w 2).2 with
           | Except.ok v =>
               (TxEvent.beginTx :: (runTx w 2).1 ++ [TxEvent.commitTx],
                Except.ok v)
           | Except.error exc =>
               (TxEvent.beginTx :: (runTx w 2).1 ++ [TxEvent.rollbackTx],
                Except.error exc)) := rfl
  refine ⟨fun d => rfl, ?_, ?_⟩ <;>
    cases h : (runTx w 2).2 <;>
      simp [houter, hinner, h, List.count_cons]

/-! ### core/pydantic/base_model.py and the validation handler -/

/-- A pydantic ValidationError, reduced to the raw errors it carries. -/
structure ValidationError (rho : Type) where
  raw_errors : rho

/-- The fastapi RequestValidationError raised by the generated binder
functions, carrying the raw errors of the underlying ValidationError. -/
structure RequestValidationError (rho : Type) where
  raw : rho

/-- The closure installed as as_query by QueryBaseModel on each subclass
(as_form of FormBaseModel has the identical body): constructing the model
from the bound data returns it, and a pydantic ValidationError is
re-raised as a RequestValidationError carrying the raw errors. -/
def as_query {dt md rho : Type}
    (cls : dt → Except (ValidationError rho) md) (data : dt) :
    Except (RequestValidationError rho) md :=
  match cls data with
  | Except.ok m => Except.ok m
  | Except.error exc => Except.error { raw := exc.raw_errors }

/-- validation_exception_handler registered by init_listeners in
app/server.py delegates to the framework default
request_validation_exception_handler unchanged. -/
def validation_exception_handler {exc resp : Type}
    (frameworkDefault : exc → resp) (e : exc) : resp :=
  frameworkDefault e

/-- The names imported at the top of core/pydantic/base_model.py:
inspect, Query from fastapi, RequestValidationError, BaseConfig,
BaseModel, ValidationError from pydantic, snake2camel. Form is not
imported. -/
def base_model_imports : List String :=
  ["inspect", "Query", "RequestValidationError", "BaseConfig", "BaseModel",
   "ValidationError", "snake2camel"]

/-- Result of running a subclass hook: the generated binder function, or
a NameError on a name missing from module scope. -/
inductive SubclassInit (f : Type) where
  | generated (fn : f)
  | nameError (missing : String)

/-- FormBaseModel of core/pydantic/base_model.py: its subclass hook first
evaluates Form applied to an ellipsis, so it requires the name Form in
module scope before the as_form closure can be produced and installed. -/
def form_init_subclass {dt md rho : Type}
    (cls : dt → Except (ValidationError rho) md) :
    SubclassInit (dt → Except (RequestValidationError rho) md) :=
  if "Form" ∈ base_model_imports then SubclassInit.generated (as_query cls)
  else SubclassInit.nameError "Form"

/-- QueryBaseModel of core/pydantic/base_model.py: its subclass hook
evaluates Query applied to an ellipsis, requiring the name Query, then
installs the as_query closure. -/
def query_init_subclass {dt md rho : Type}
    (cls : dt → Except (ValidationError rho) md) :
    SubclassInit (dt → Except (RequestValidationError rho) md) :=
  if "Query" ∈ base_model_imports then SubclassInit.generated (as_query cls)
  else SubclassInit.nameError "Query"

/-! ### core/http_client/client.py : the Aiohttp class -/

/-- The class-level state of Aiohttp: the optional pooled client,
identified by its allocation id, and a fresh-id counter standing for the
construction of new ClientSession objects. -/
structure AiohttpState where
  aiohttp_client : Option Nat
  fresh : Nat
deriving DecidableEq, Repr

/-- Construction and closing events of pooled clients. -/
inductive ClientEvent where
  | constructClient (idn : Nat)
  | closeClient (idn : Nat)
deriving DecidableEq, Repr

/-- get_aiohttp_client from core/http_client/client.py: when no client
exists, construct one and store it; return the stored client. -/
def get_aiohttp_client (s : AiohttpState) :
    Nat × AiohttpState × List ClientEvent :=
  match s.aiohttp_client with
  | some c => (c, s, [])
  | none =>
      (s.fresh, { aiohttp_client := some s.fresh, fresh := s.fresh + 1 },
       [ClientEvent.constructClient s.fresh])

/-- close_aiohttp_client from core/http_client/client.py: when a client
exists, close it and reset the slot to None; otherwise do nothing. -/
def close_aiohttp_client (s : AiohttpState) :
    AiohttpState × List ClientEvent :=
  match s.aiohttp_client with
  | some c =>
      ({ aiohttp_client := none, fresh := s.fresh },
       [ClientEvent.closeClient c])
  | none => (s, [])

/-- on_start_up calls get_aiohttp_client for its effect, discarding the
returned client. -/
def on_start_up (s : AiohttpState) : AiohttpState × List ClientEvent :=
  ((get_aiohttp_client s).2.1, (get_aiohttp_client s).2.2)

/-- on_shutdown awaits close_aiohttp_client. -/
def on_shutdown (s : AiohttpState) : AiohttpState × List ClientEvent :=
  close_aiohttp_client s

/-! ### core/http_client/client.py : query_url -/

/-- An HTTP response as observed by query_url: a status, a text body and
a parsed JSON body (abstract). -/
structure HttpResponse (js : Type) where
  status : Nat
  text : String
  json : js

/-- The HTTP exchange inside the try block of query_url: either an
exception is raised, or a response is produced. -/
inductive Exchange (eTy js : Type) where
  | raisedExc (e : eTy)
  | responded (r : HttpResponse js)

/-- The possible results of query_url. -/
inductive QueryUrlResult (eTy js : Type) where
  | jsonBody (j : js)
  | textBody (t : String)
  | errorSet (s : String)
  | errorDict (e : eTy)

/-- query_url from core/http_client/client.py: inside the try block a
response with status other than 200 returns a one-element set whose
string is ERROR OCCURED followed by the response text; a 200 response
returns the parsed JSON body when result_type is json, the text body when
result_type is text, and the text body again in the final else branch;
any exception raised during the exchange is caught and returned as a dict
binding the key ERROR to the exception. -/
def query_url {eTy js : Type} (exchange : Exchange eTy js)
    (result_type : String) : QueryUrlResult eTy js :=
  match exchange with
  | Exchange.raisedExc e => QueryUrlResult.errorDict e
  | Exchange.responded r =>
      if r.status ≠ 200 then
        QueryUrlResult.errorSet ("ERROR OCCURED" ++ r.text)
      else if result_type = "json" then QueryUrlResult.jsonBody r.json
      else if result_type = "text" then QueryUrlResult.textBody r.text
      else QueryUrlResult.textBody r.text

/-! ### core/fastapi/jsonable_encoder.py : custom_jsonable_encoder -/

/-- A numpy ndarray as a finitely branching tree of numeric scalars. -/
inductive NpArr where
  | scalarInt (n : Int)
  | scalarFloat (q : ℚ)
  | arr (xs : List NpArr)

/-- A JSON-encodable value; float-shaped and int-shaped numbers are
distinct. -/
inductive Encoded where
  | floatVal (q : ℚ)
  | intVal (n : Int)
  | listVal (xs : List Encoded)

/-- Whether an encoded value is float-shaped. -/
def Encoded.isFloat : Encoded → Bool
  | Encoded.floatVal _ => true
  | _ => false

/-- Whether an encoded value is int-shaped. -/
def Encoded.isInt : Encoded → Bool
  | Encoded.intVal _ => true
  | _ => false

/-- The numpy tolist method: scalars become the corresponding plain
Python numbers, arrays become nested lists. -/
def NpArr.tolist : NpArr → Encoded
  | NpArr.scalarInt n => Encoded.intVal n
  | NpArr.scalarFloat q => Encoded.floatVal q
  | NpArr.arr xs =>
      Encoded.listVal (xs.attach.map (fun x => NpArr.tolist x.1))
decreasing_by
  simp only [NpArr.arr.sizeOf_spec]
  have h := List.sizeOf_lt_of_mem x.2
  omega

/-- The values dispatched by the custom encoder dict of
core/fastapi/jsonable_encoder.py. -/
inductive NpValue where
  | npInteger (n : Int)
  | npFloating (q : ℚ)
  | ndarray (a : NpArr)
  | pdTimestamp (posix : ℚ)

/-- custom_jsonable_encoder from core/fastapi/jsonable_encoder.py:
jsonable_encoder with the custom encoder dict mapping numpy integers and
numpy floats through float, ndarrays through tolist, and pandas
Timestamps through their POSIX timestamp value. -/
def custom_jsonable_encoder : NpValue → Encoded
  | NpValue.npInteger n => Encoded.floatVal (n : ℚ)
  | NpValue.npFloating q => Encoded.floatVal q
  | NpValue.ndarray a => a.tolist
  | NpValue.pdTimestamp p => Encoded.floatVal p

/-! ### Theorems for claims C6, C8, C9, C10 -/

/-- Claim C6: the generated as_query wraps a pydantic validation failure
into a RequestValidationError carrying the raw errors instead of letting
ValidationError propagate, and the RequestValidationError handler
delegates unchanged to the framework default; however, the parallel
FormBaseModel path never produces as_form, because its subclass hook
evaluates the name Form, which base_model.py does not import, so subclass
creation fails with a NameError while the QueryBaseModel hook succeeds. -/
theorem C6_validation_wrapping {dt md rho : Type}
    (cls : dt → Except (ValidationError rho) md) (data : dt) :
    (match cls data with
     | Except.ok m => as_query cls data = Except.ok m
     | Except.error exc =>
         as_query cls data = Except.error { raw := exc.raw_errors })
    ∧ (∀ (exc resp : Type) (fd : exc → resp) (e : exc),
        validation_exception_handler fd e = fd e)
    ∧ form_init_subclass cls = SubclassInit.nameError "Form"
    ∧ query_init_subclass cls = SubclassInit.generated (as_query cls) := by
  refine ⟨?_, fun _ _ _ _ => rfl, ?_, ?_⟩
  · cases h : cls data <;> simp [as_query, h]
  · simp [form_init_subclass, base_model_imports]
  · simp [query_init_subclass, base_model_imports]

/-- Claim C8: after any call to get_aiohttp_client the state is a
fixpoint, so every subsequent call returns the very same client instance
with no construction event; the same holds after on_start_up; on_shutdown
on a state holding a client closes it and resets the slot to None, and
on_shutdown without a client is a no-op. -/
theorem C8_client_lifecycle (s : AiohttpState) :
    (get_aiohttp_client (get_aiohttp_client s).2.1
        = ((get_aiohttp_client s).1, (get_aiohttp_client s).2.1, []))
    ∧ (get_aiohttp_client (on_start_up s).1
        = ((get_aiohttp_client s).1, (on_start_up s).1, []))
    ∧ (match s.aiohttp_client with
       | none => on_shutdown s = (s, [])
       | some c =>
           (on_shutdown s).1.aiohttp_client = none
           ∧ (on_shutdown s).2 = [ClientEvent.closeClient c]) := by
  rcases s with ⟨cl, f⟩
  cases cl <;>
    simp [get_aiohttp_client, on_start_up, on_shutdown,
      close_aiohttp_client]

/-- Claim C9: query_url is total over the outcomes of the HTTP exchange:
a raised exception is caught and returned as the ERROR dict, a response
with status other than 200 yields the one-element error set, and a 200
response yields the parsed JSON body when result_type is json and the
text body for any other result_type. -/
theorem C9_query_url_total (eTy js : Type) (exchange : Exchange eTy js)
    (result_type : String) :
    (match exchange with
     | Exchange.raisedExc e =>
         query_url exchange result_type = QueryUrlResult.errorDict e
     | Exchange.responded r =>
         (r.status ≠ 200 →
            query_url exchange result_type
              = QueryUrlResult.errorSet ("ERROR OCCURED" ++ r.text))
         ∧ (r.status = 200 → result_type = "json" →
              query_url exchange result_type
                = QueryUrlResult.jsonBody r.json)
         ∧ (r.status = 200 → result_type ≠ "json" →
              query_url exchange result_type
                = QueryUrlResult.textBody r.text)) := by
  cases exchange with
  | raisedExc e => rfl
  | responded r =>
      refine ⟨fun hne => ?_, fun h200 hjson => ?_, fun h200 hjson => ?_⟩
      · simp [query_url, hne]
      · simp [query_url, h200, hjson]
      · by_cases ht : result_type = "text" <;>
          simp [query_url, h200, hjson, ht]

/-- Claim C9 witness: query_url evaluated on concrete exchanges, with the
hypotheses of the claim theorem discharged at those inputs. -/
theorem C9_query_url_total_witness :
    query_url (Exchange.responded ⟨404, "x", 0⟩ : Exchange Nat Nat) "json"
      = QueryUrlResult.errorSet ("ERROR OCCURED" ++ "x")
    ∧ query_url (Exchange.responded ⟨200, "x", 7⟩ : Exchange Nat Nat) "json"
      = QueryUrlResult.jsonBody 7
    ∧ query_url (Exchange.responded ⟨200, "x", 7⟩ : Exchange Nat Nat) "csv"
      = QueryUrlResult.textBody "x" :=
  ⟨(C9_query_url_total Nat Nat
      (Exchange.responded ⟨404, "x", 0⟩) "json").1 (by decide),
   (C9_query_url_total Nat Nat
      (Exchange.responded ⟨200, "x", 7⟩) "json").2.1 rfl rfl,
   (C9_query_url_total Nat Nat
      (Exchange.responded ⟨200, "x", 7⟩) "csv").2.2 rfl (by decide)⟩

/-- Claim C10: the custom encoder maps every numpy integer to a
float-shaped value (not an int-shaped one), every numpy float to a
float-shaped value, every ndarray to its nested list through tolist, and
every pandas Timestamp to its POSIX timestamp as a float-shaped value. -/
theorem C10_numpy_encoding (n : Int) (q p : ℚ) (a : NpArr) :
    custom_jsonable_encoder (NpValue.npInteger n)
        = Encoded.floatVal (n : ℚ)
    ∧ (custom_jsonable_encoder (NpValue.npInteger n)).isFloat = true
    ∧ (custom_jsonable_encoder (NpValue.npInteger n)).isInt = false
    ∧ custom_jsonable_encoder (NpValue.npFloating q) = Encoded.floatVal q
    ∧ custom_jsonable_encoder (NpValue.ndarray a) = a.tolist
    ∧ custom_jsonable_encoder (NpValue.pdTimestamp p)
        = Encoded.floatVal p :=
  ⟨rfl, rfl, rfl, rfl, rfl, rfl⟩

end Ddd
